import Mathlib

/-!
Verification development for the secrets / LLM-settings core of the
agentic-ai-minimal-template backend.

Part A embeds `backend/core/secrets.py` together with
`backend/core/encrypted_secrets.py`.  Stateful Python code becomes explicit
state passing on a `ServiceState`; each operation additionally returns the
ordered list of externally visible `Event`s it performed, so that ordering
claims (cache eviction versus store write) can be stated.  The Fernet cipher
is embedded algebraically by its contract: `encrypt_value` under the derived
key produces a token that `decrypt_value` maps back to the plaintext under
the same key, while decryption under a different key, or of a corrupted
blob, fails with `InvalidToken`.  The TTL cache (`backend/core/cache.py`) and
the settings object (`backend/core/config.py`) are not part of the provided
sources; they are modelled from the spec where noted.

Part B embeds `backend/llm_settings/service.py` and
`backend/llm_settings/models.py`: the hierarchical effective-settings
algorithm and the available-models computation, over an explicit
`SettingsDB` standing for the relational rows.
-/

/-- Error raised by the embedded Fernet cipher on failed authenticated
decryption; mirrors `cryptography.fernet.InvalidToken`. -/
inductive CryptoError where
  | invalidToken
deriving DecidableEq

/-- Symbolic ciphertext for the Fernet cipher of
`backend/core/encrypted_secrets.py`.  A `token k s` is the result of
encrypting plaintext `s` under derived key `k`; `corrupted` stands for a
stored blob that is not a valid token for any key (tampered or truncated).
The actual AES/HMAC construction is not reproduced; the embedding keeps
exactly the properties the source relies on: authenticated round trip under
the same key, failure otherwise. -/
inductive Ciphertext where
  | token (key : Nat) (plain : String)
  | corrupted (raw : String)
deriving DecidableEq

/-- Embedding of `encrypt_value` (encrypted_secrets.py): encrypt plaintext
under the process-wide derived key. -/
def encrypt_value (key : Nat) (plaintext : String) : Ciphertext :=
  Ciphertext.token key plaintext

/-- Embedding of `decrypt_value` (encrypted_secrets.py): authenticated
decryption; raises `InvalidToken` when the token was produced under a
different derived key or the blob is corrupted. -/
def decrypt_value (key : Nat) (c : Ciphertext) : Except CryptoError String :=
  match c with
  | Ciphertext.token k s => if k == key then Except.ok s else Except.error CryptoError.invalidToken
  | Ciphertext.corrupted _ => Except.error CryptoError.invalidToken

/-- Cache TTL constant `SECRETS_CACHE_TTL_SECONDS = 300` from secrets.py. -/
def SECRETS_CACHE_TTL_SECONDS : Nat := 300

/-- Supported provider list `SUPPORTED_PROVIDERS` from secrets.py. -/
def SUPPORTED_PROVIDERS : List String := ["openai", "anthropic", "google"]

/-- One entry of the secrets TTL cache: key, cached plaintext, absolute
expiry instant. -/
structure CacheEntry where
  key : String
  value : String
  expiresAt : Nat
deriving DecidableEq

/-- Modelled from the spec: `backend/core/cache.py` (TTLCache) is not among
the provided sources.  Per spec section 4.3 the cache is a read-through map
keyed by path entry: `get` returns a cached value if not expired, else
misses. -/
def cache_get (cache : List CacheEntry) (now : Nat) (key : String) : Option String :=
  match cache.find? (fun e => e.key == key) with
  | some e => if now < e.expiresAt then some e.value else none
  | none => none

/-- Modelled from the spec: TTLCache `set` stores the value with a fresh
expiry, replacing any previous entry for the key. -/
def cache_put (cache : List CacheEntry) (now : Nat) (key value : String) (ttl : Nat) : List CacheEntry :=
  { key := key, value := value, expiresAt := now + ttl } :: cache.filter (fun e => !(e.key == key))

/-- Modelled from the spec: TTLCache `delete` evicts the entry for a key. -/
def cache_evict (cache : List CacheEntry) (key : String) : List CacheEntry :=
  cache.filter (fun e => !(e.key == key))

/-- Modelled from the spec: the provider-keyed environment defaults held by
`backend/core/config.py` (`settings.OPENAI_API_KEY` and friends); `none`
means not configured. -/
structure EnvSettings where
  OPENAI_API_KEY : Option String
  ANTHROPIC_API_KEY : Option String
  GOOGLE_API_KEY : Option String
deriving DecidableEq

/-- State of the `SecretsService`: the `encrypted_secrets` table rows (path
to ciphertext), the TTL cache, the process-wide derived Fernet key, the
environment settings, whether the database connection currently fails (used
to embed store I/O errors), and the current clock instant. -/
structure ServiceState where
  store : List (String × Ciphertext)
  cache : List CacheEntry
  masterKey : Nat
  env : EnvSettings
  storeFails : Bool
  now : Nat
deriving DecidableEq

/-- Externally visible actions of one secrets operation, in program order. -/
inductive Event where
  | cacheDelete (key : String)
  | cacheStore (key : String)
  | storeRead (path : String)
  | storeWrite (path : String)
  | storeDeleteRow (path : String)
  | logDecryptFailed (path : String)
deriving DecidableEq

/-- Store I/O failure (for example a lost database connection). -/
inductive StoreError where
  | connectionFailure
deriving DecidableEq

/-- Row lookup `select(EncryptedSecret).where(path == full_path).first()`. -/
def store_find (store : List (String × Ciphertext)) (path : String) : Option Ciphertext :=
  match store.find? (fun e => e.1 == path) with
  | some e => some e.2
  | none => none

/-- Upsert performed by `_set_secret`: update the existing row in place if
the path exists, else insert a new row. -/
def store_upsert (store : List (String × Ciphertext)) (path : String) (c : Ciphertext) : List (String × Ciphertext) :=
  if (store.find? (fun e => e.1 == path)).isSome then
    store.map (fun e => if e.1 == path then (path, c) else e)
  else
    store ++ [(path, c)]

/-- Row removal performed by `_delete_secret` when the row exists. -/
def store_remove (store : List (String × Ciphertext)) (path : String) : List (String × Ciphertext) :=
  store.filter (fun e => !(e.1 == path))

/-- Embedding of `_get_secret_path` (secrets.py): Python truthiness means an
empty or absent team id yields the organization path. -/
def get_secret_path (org_id : String) (team_id : Option String) : String :=
  match team_id with
  | some t =>
      if t == "" then "/organizations/" ++ org_id
      else "/organizations/" ++ org_id ++ "/teams/" ++ t
  | none => "/organizations/" ++ org_id

/-- Embedding of `_get_cache_key` (secrets.py). -/
def get_cache_key (secret_name path : String) : String :=
  "secret:" ++ path ++ ":" ++ secret_name

/-- Python truthiness of an optional string: `None` and the empty string are
falsy. -/
def optTruthy : Option String → Bool
  | some s => !(s == "")
  | none => false

/-- Result of a read operation: value, post state, event trace. -/
structure GetResult where
  value : Option String
  state : ServiceState
  trace : List Event
deriving DecidableEq

/-- Result of a write or delete operation: boolean outcome, post state,
event trace. -/
structure OpResult where
  ok : Bool
  state : ServiceState
  trace : List Event
deriving DecidableEq

/-- Body of the `try` block of `_get_secret` (secrets.py lines 96-125): read
the row, decrypt, populate the cache; a store I/O failure surfaces as an
`Except.error`.  A decryption failure is handled inside the block: it logs
`secrets_decryption_failed` and yields `None` without caching. -/
def get_secret_attempt (st : ServiceState) (cacheKey fullPath : String) : Except StoreError GetResult :=
  if st.storeFails then Except.error StoreError.connectionFailure
  else
    match store_find st.store fullPath with
    | none => Except.ok { value := none, state := st, trace := [Event.storeRead fullPath] }
    | some c =>
        match decrypt_value st.masterKey c with
        | Except.error _ =>
            Except.ok { value := none, state := st,
                        trace := [Event.storeRead fullPath, Event.logDecryptFailed fullPath] }
        | Except.ok v =>
            Except.ok { value := some v,
                        state := { st with cache := cache_put st.cache st.now cacheKey v SECRETS_CACHE_TTL_SECONDS },
                        trace := [Event.storeRead fullPath, Event.cacheStore cacheKey] }

/-- Embedding of `SecretsService._get_secret`: cache lookup first (a hit,
including a cached empty string, returns immediately); on a miss run the
`try` block; the `except Exception` handler logs `secrets_get_failed` and
returns `None`. -/
def get_secret (st : ServiceState) (secret_name path : String) : GetResult :=
  let fullPath := path ++ "/" ++ secret_name
  let cacheKey := get_cache_key secret_name path
  match cache_get st.cache st.now cacheKey with
  | some v => { value := some v, state := st, trace := [] }
  | none =>
      match get_secret_attempt st cacheKey fullPath with
      | Except.ok r => r
      | Except.error _ => { value := none, state := st, trace := [] }

/-- Body of the `try` block of `_set_secret` (secrets.py lines 147-183):
encrypt, then upsert the row; a store I/O failure surfaces as an
`Except.error`. -/
def set_secret_attempt (st : ServiceState) (fullPath value : String) : Except StoreError OpResult :=
  if st.storeFails then Except.error StoreError.connectionFailure
  else
    let encrypted := encrypt_value st.masterKey value
    Except.ok { ok := true,
                state := { st with store := store_upsert st.store fullPath encrypted },
                trace := [Event.storeWrite fullPath] }

/-- Embedding of `SecretsService._set_secret`: the cache entry is evicted
first (secrets.py lines 143-145), then the `try` block runs; the
`except Exception` handler logs `secrets_set_failed` and returns `False`. -/
def set_secret (st : ServiceState) (secret_name value path : String) : OpResult :=
  let fullPath := path ++ "/" ++ secret_name
  let cacheKey := get_cache_key secret_name path
  let st1 := { st with cache := cache_evict st.cache cacheKey }
  match set_secret_attempt st1 fullPath value with
  | Except.ok r => { r with trace := Event.cacheDelete cacheKey :: r.trace }
  | Except.error _ => { ok := false, state := st1, trace := [Event.cacheDelete cacheKey] }

/-- Body of the `try` block of `_delete_secret` (secrets.py lines 205-223):
remove the row if present; deleting a missing row also succeeds. -/
def delete_secret_attempt (st : ServiceState) (fullPath : String) : Except StoreError OpResult :=
  if st.storeFails then Except.error StoreError.connectionFailure
  else
    match store_find st.store fullPath with
    | some _ =>
        Except.ok { ok := true,
                    state := { st with store := store_remove st.store fullPath },
                    trace := [Event.storeDeleteRow fullPath] }
    | none => Except.ok { ok := true, state := st, trace := [] }

/-- Embedding of `SecretsService._delete_secret`: cache eviction first
(secrets.py lines 201-203), then the `try` block; the exception handler
returns `False`. -/
def delete_secret (st : ServiceState) (secret_name path : String) : OpResult :=
  let fullPath := path ++ "/" ++ secret_name
  let cacheKey := get_cache_key secret_name path
  let st1 := { st with cache := cache_evict st.cache cacheKey }
  match delete_secret_attempt st1 fullPath with
  | Except.ok r => { r with trace := Event.cacheDelete cacheKey :: r.trace }
  | Except.error _ => { ok := false, state := st1, trace := [Event.cacheDelete cacheKey] }

/-- Embedding of `SecretsService._get_env_fallback`: the dictionary lookup
`mapping.get(provider)` over the three configured settings fields. -/
def get_env_fallback (env : EnvSettings) (provider : String) : Option String :=
  if provider == "openai" then env.OPENAI_API_KEY
  else if provider == "anthropic" then env.ANTHROPIC_API_KEY
  else if provider == "google" then env.GOOGLE_API_KEY
  else none

/-- Embedding of `SecretsService.get_llm_api_key`: team level first (when
`team_id` is truthy), then organization level, then the environment
fallback, which is returned verbatim.  Python truthiness (`if key:`) makes
an empty decrypted string fall through to the next level. -/
def get_llm_api_key (st : ServiceState) (provider org_id : String) (team_id : Option String) : GetResult :=
  let secret_name := provider ++ "_api_key"
  let step1 : GetResult :=
    if optTruthy team_id then get_secret st secret_name (get_secret_path org_id team_id)
    else { value := none, state := st, trace := [] }
  if optTruthy step1.value then step1
  else
    let step2 := get_secret step1.state secret_name (get_secret_path org_id none)
    if optTruthy step2.value then { step2 with trace := step1.trace ++ step2.trace }
    else { value := get_env_fallback st.env provider, state := step2.state,
           trace := step1.trace ++ step2.trace }

/-- Embedding of `SecretsService.set_llm_api_key`: unsupported providers are
rejected up front with `False` and no side effect. -/
def set_llm_api_key (st : ServiceState) (provider api_key org_id : String) (team_id : Option String) : OpResult :=
  if SUPPORTED_PROVIDERS.contains provider then
    set_secret st (provider ++ "_api_key") api_key (get_secret_path org_id team_id)
  else { ok := false, state := st, trace := [] }

/-- Embedding of `SecretsService.delete_llm_api_key`: unsupported providers
are rejected up front with `False` and no side effect. -/
def delete_llm_api_key (st : ServiceState) (provider org_id : String) (team_id : Option String) : OpResult :=
  if SUPPORTED_PROVIDERS.contains provider then
    delete_secret st (provider ++ "_api_key") (get_secret_path org_id team_id)
  else { ok := false, state := st, trace := [] }

/-- Recognizer for store-write events. -/
def isStoreWrite : Event → Bool
  | Event.storeWrite _ => true
  | _ => false

/-- Recognizer for cache-eviction events. -/
def isCacheDelete : Event → Bool
  | Event.cacheDelete _ => true
  | _ => false

/-- Holds when some store write occurs strictly before some cache eviction
in the trace: the ordering the spec calls write-then-evict. -/
def write_then_evict : List Event → Bool
  | [] => false
  | e :: rest => (isStoreWrite e && rest.any isCacheDelete) || write_then_evict rest

-- Helper lemmas about the cache and store association lists.

/-- After evicting a key, a cache lookup for that key misses. -/
theorem cache_get_evict_self (cache : List CacheEntry) (now : Nat) (key : String) :
    cache_get (cache_evict cache key) now key = none := by
  induction cache with
  | nil => rfl
  | cons e t ih =>
      unfold cache_evict at ih ⊢
      cases he : e.key == key with
      | false => simpa [cache_get, List.filter_cons, he] using ih
      | true => simpa [cache_get, List.filter_cons, he] using ih

/-- Replacing the matching entries of an association list in place makes the
lookup return the replacement exactly when a match existed. -/
theorem store_find_map_replace (t : List (String × Ciphertext)) (path : String) (c : Ciphertext) :
    store_find (t.map (fun e => if e.1 == path then (path, c) else e)) path
      = if (t.find? (fun e => e.1 == path)).isSome then some c else none := by
  induction t with
  | nil => rfl
  | cons e t ih =>
      cases he : e.1 == path with
      | true =>
          rw [List.map_cons, if_pos he]
          rw [show (e :: t).find? (fun x => x.1 == path) = some e from by
            simp [List.find?, he]]
          unfold store_find
          simp [List.find?]
      | false =>
          rw [List.map_cons, if_neg (by simp [he])]
          rw [show (e :: t).find? (fun x => x.1 == path) = t.find? (fun x => x.1 == path) from by
            simp [List.find?, he]]
          unfold store_find at ih ⊢
          rw [show (e :: t.map (fun e => if e.1 == path then (path, c) else e)).find?
                (fun x => x.1 == path)
              = (t.map (fun e => if e.1 == path then (path, c) else e)).find?
                (fun x => x.1 == path) from by
            simp [List.find?, he]]
          exact ih

/-- When no entry of the first list matches, lookup in the concatenation is
lookup in the second list. -/
theorem store_find_append_of_none (t l : List (String × Ciphertext)) (path : String)
    (h : t.find? (fun e => e.1 == path) = none) :
    store_find (t ++ l) path = store_find l path := by
  induction t with
  | nil => rfl
  | cons e t ih =>
      cases he : e.1 == path with
      | true => simp [List.find?, he] at h
      | false =>
          have ht : t.find? (fun e => e.1 == path) = none := by
            simpa [List.find?, he] using h
          unfold store_find at ih ⊢
          rw [List.cons_append]
          rw [show ((e :: (t ++ l)).find? (fun x => x.1 == path))
              = ((t ++ l).find? (fun x => x.1 == path)) from by
            simp [List.find?, he]]
          exact ih ht

/-- Looking up a path after upserting it yields the upserted ciphertext. -/
theorem store_find_upsert_self (store : List (String × Ciphertext)) (path : String) (c : Ciphertext) :
    store_find (store_upsert store path c) path = some c := by
  unfold store_upsert
  cases h : (store.find? (fun e => e.1 == path)).isSome with
  | true =>
      simp only [h, if_true]
      rw [store_find_map_replace, h]
      rfl
  | false =>
      simp only [h, Bool.false_eq_true, if_false]
      have hn : store.find? (fun e => e.1 == path) = none := by
        cases hf : store.find? (fun e => e.1 == path) with
        | none => rfl
        | some v => rw [hf] at h; simp at h
      rw [store_find_append_of_none _ _ _ hn]
      unfold store_find
      simp [List.find?]

/-- Decidable equality for Except results, used to evaluate concrete
outcomes of the embedded try blocks. -/
instance {e : Type} {a : Type} [DecidableEq e] [DecidableEq a] : DecidableEq (Except e a) := fun x y => by
  cases x with
  | ok v =>
      cases y with
      | ok w => exact if h : v = w then isTrue (by rw [h]) else isFalse (fun hh => h (by injection hh))
      | error f => exact isFalse (fun hh => Except.noConfusion hh)
  | error f =>
      cases y with
      | ok w => exact isFalse (fun hh => Except.noConfusion hh)
      | error g => exact if h : f = g then isTrue (by rw [h]) else isFalse (fun hh => h (by injection hh))

-- Claim C7: round trip.

/-- C7: for every non-empty string s and every secret name and path,
performing set and then get on a working store returns exactly s: encrypt
followed by decrypt under the same derived key is the identity, the upsert
makes the store return the most recently written value, and the eviction
performed by set means get cannot serve a stale cache entry. -/
theorem c7_round_trip_set_get (st : ServiceState) (secret_name path s : String)
    (hF : st.storeFails = false) (hs : s ≠ "") :
    (get_secret (set_secret st secret_name s path).state secret_name path).value = some s := by
  unfold set_secret set_secret_attempt
  simp only [hF, Bool.false_eq_true, if_false]
  unfold get_secret get_secret_attempt
  simp [cache_get_evict_self, store_find_upsert_self, encrypt_value, decrypt_value, hF]

/-- C7 witness: the round trip at a concrete state and secret. -/
theorem c7_round_trip_witness :
    (get_secret (set_secret
        { store := [], cache := [], masterKey := 7, env := ⟨none, none, none⟩,
          storeFails := false, now := 0 }
        "openai_api_key" "sk-abc" "/organizations/o1").state
      "openai_api_key" "/organizations/o1").value = some "sk-abc" :=
  c7_round_trip_set_get
    { store := [], cache := [], masterKey := 7, env := ⟨none, none, none⟩,
      storeFails := false, now := 0 }
    "openai_api_key" "/organizations/o1" "sk-abc" rfl (by decide)

-- Claim C2: eviction ordering of set and delete.

/-- C2 counterexample: at a concrete state carrying a stale cached value,
the trace of set is exactly cache eviction followed by the store write, so
no store write precedes a cache eviction: the code evicts BEFORE the
confirmed store write (evict-then-write), contradicting the claimed
write-then-evict ordering. -/
theorem c2_order_counterexample :
    (set_secret
        { store := [], cache := [⟨"secret:/organizations/o1:openai_api_key", "stale", 100⟩],
          masterKey := 7, env := ⟨none, none, none⟩, storeFails := false, now := 0 }
        "openai_api_key" "sk-new" "/organizations/o1").trace
      = [Event.cacheDelete "secret:/organizations/o1:openai_api_key",
         Event.storeWrite "/organizations/o1/openai_api_key"]
    ∧ write_then_evict (set_secret
        { store := [], cache := [⟨"secret:/organizations/o1:openai_api_key", "stale", 100⟩],
          masterKey := 7, env := ⟨none, none, none⟩, storeFails := false, now := 0 }
        "openai_api_key" "sk-new" "/organizations/o1").trace = false := by
  decide

/-- C2 amended: set and delete synchronously evict the cache entry before
returning, but the eviction happens BEFORE the store write, not after it;
the stale-read consequence still holds, because set does not repopulate the
cache, so a get issued immediately after set returns the new value even if
a prior cached value existed. -/
theorem c2_evict_before_write (st : ServiceState) (secret_name path s : String)
    (hF : st.storeFails = false) :
    (set_secret st secret_name s path).trace
      = [Event.cacheDelete (get_cache_key secret_name path),
         Event.storeWrite (path ++ "/" ++ secret_name)]
    ∧ (delete_secret st secret_name path).trace.head?
        = some (Event.cacheDelete (get_cache_key secret_name path))
    ∧ (get_secret (set_secret st secret_name s path).state secret_name path).value = some s := by
  refine ⟨?_, ?_, ?_⟩
  · unfold set_secret set_secret_attempt
    simp [hF]
  · unfold delete_secret delete_secret_attempt
    cases h : store_find st.store (path ++ "/" ++ secret_name) with
    | some c => simp [hF, h]
    | none => simp [hF, h]
  · unfold set_secret set_secret_attempt
    simp only [hF, Bool.false_eq_true, if_false]
    unfold get_secret get_secret_attempt
    simp [cache_get_evict_self, store_find_upsert_self, encrypt_value, decrypt_value, hF]

/-- C2 witness: the amended ordering and freshness at a concrete state with
a previously cached value. -/
theorem c2_evict_before_write_witness :
    (set_secret
        { store := [], cache := [⟨"secret:/organizations/o2:openai_api_key", "old", 250⟩],
          masterKey := 3, env := ⟨none, none, none⟩, storeFails := false, now := 0 }
        "openai_api_key" "sk-fresh" "/organizations/o2").trace
      = [Event.cacheDelete (get_cache_key "openai_api_key" "/organizations/o2"),
         Event.storeWrite ("/organizations/o2" ++ "/" ++ "openai_api_key")]
    ∧ (delete_secret
        { store := [], cache := [⟨"secret:/organizations/o2:openai_api_key", "old", 250⟩],
          masterKey := 3, env := ⟨none, none, none⟩, storeFails := false, now := 0 }
        "openai_api_key" "/organizations/o2").trace.head?
        = some (Event.cacheDelete (get_cache_key "openai_api_key" "/organizations/o2"))
    ∧ (get_secret (set_secret
        { store := [], cache := [⟨"secret:/organizations/o2:openai_api_key", "old", 250⟩],
          masterKey := 3, env := ⟨none, none, none⟩, storeFails := false, now := 0 }
        "openai_api_key" "sk-fresh" "/organizations/o2").state
        "openai_api_key" "/organizations/o2").value = some "sk-fresh" :=
  c2_evict_before_write
    { store := [], cache := [⟨"secret:/organizations/o2:openai_api_key", "old", 250⟩],
      masterKey := 3, env := ⟨none, none, none⟩, storeFails := false, now := 0 }
    "openai_api_key" "/organizations/o2" "sk-fresh" rfl

-- Claim C5: store I/O error handling.

/-- C5 counterexample: at a concrete state whose database connection fails,
the try-block bodies of get and set do raise a store error, yet the public
operations swallow it: get returns an ordinary absent value and set and
delete return an ordinary False, so store I/O errors do NOT propagate
unchanged to the caller. -/
theorem c5_swallowed_error_counterexample :
    get_secret_attempt
        { store := [("/organizations/o1/openai_api_key", Ciphertext.token 7 "k")], cache := [],
          masterKey := 7, env := ⟨none, none, none⟩, storeFails := true, now := 0 }
        "secret:/organizations/o1:openai_api_key" "/organizations/o1/openai_api_key"
      = Except.error StoreError.connectionFailure
    ∧ (get_secret
        { store := [("/organizations/o1/openai_api_key", Ciphertext.token 7 "k")], cache := [],
          masterKey := 7, env := ⟨none, none, none⟩, storeFails := true, now := 0 }
        "openai_api_key" "/organizations/o1").value = none
    ∧ (set_secret
        { store := [("/organizations/o1/openai_api_key", Ciphertext.token 7 "k")], cache := [],
          masterKey := 7, env := ⟨none, none, none⟩, storeFails := true, now := 0 }
        "openai_api_key" "v" "/organizations/o1").ok = false
    ∧ (delete_secret
        { store := [("/organizations/o1/openai_api_key", Ciphertext.token 7 "k")], cache := [],
          masterKey := 7, env := ⟨none, none, none⟩, storeFails := true, now := 0 }
        "openai_api_key" "/organizations/o1").ok = false := by
  decide

/-- C5 amended: a store I/O failure is caught inside get, set and delete and
logged; get converts it to an absent result and set and delete convert it
to False, leaving the store untouched; the failure is not retried and never
propagates to the caller. -/
theorem c5_store_error_caught (st : ServiceState) (secret_name path v : String)
    (hF : st.storeFails = true)
    (hc : cache_get st.cache st.now (get_cache_key secret_name path) = none) :
    (get_secret st secret_name path).value = none
    ∧ (set_secret st secret_name v path).ok = false
    ∧ (set_secret st secret_name v path).state.store = st.store
    ∧ (delete_secret st secret_name path).ok = false
    ∧ (delete_secret st secret_name path).state.store = st.store := by
  refine ⟨?_, ?_, ?_, ?_, ?_⟩
  · unfold get_secret get_secret_attempt
    simp [hc, hF]
  · unfold set_secret set_secret_attempt
    simp [hF]
  · unfold set_secret set_secret_attempt
    simp [hF]
  · unfold delete_secret delete_secret_attempt
    simp [hF]
  · unfold delete_secret delete_secret_attempt
    simp [hF]

/-- C5 witness: the caught-error behavior at a concrete failing state. -/
theorem c5_store_error_caught_witness :
    (get_secret
        { store := [("/organizations/o3/openai_api_key", Ciphertext.token 5 "k")], cache := [],
          masterKey := 5, env := ⟨none, none, none⟩, storeFails := true, now := 0 }
        "openai_api_key" "/organizations/o3").value = none
    ∧ (set_secret
        { store := [("/organizations/o3/openai_api_key", Ciphertext.token 5 "k")], cache := [],
          masterKey := 5, env := ⟨none, none, none⟩, storeFails := true, now := 0 }
        "openai_api_key" "v" "/organizations/o3").ok = false
    ∧ (set_secret
        { store := [("/organizations/o3/openai_api_key", Ciphertext.token 5 "k")], cache := [],
          masterKey := 5, env := ⟨none, none, none⟩, storeFails := true, now := 0 }
        "openai_api_key" "v" "/organizations/o3").state.store
        = [("/organizations/o3/openai_api_key", Ciphertext.token 5 "k")]
    ∧ (delete_secret
        { store := [("/organizations/o3/openai_api_key", Ciphertext.token 5 "k")], cache := [],
          masterKey := 5, env := ⟨none, none, none⟩, storeFails := true, now := 0 }
        "openai_api_key" "/organizations/o3").ok = false
    ∧ (delete_secret
        { store := [("/organizations/o3/openai_api_key", Ciphertext.token 5 "k")], cache := [],
          masterKey := 5, env := ⟨none, none, none⟩, storeFails := true, now := 0 }
        "openai_api_key" "/organizations/o3").state.store
        = [("/organizations/o3/openai_api_key", Ciphertext.token 5 "k")] :=
  c5_store_error_caught
    { store := [("/organizations/o3/openai_api_key", Ciphertext.token 5 "k")], cache := [],
      masterKey := 5, env := ⟨none, none, none⟩, storeFails := true, now := 0 }
    "openai_api_key" "/organizations/o3" "v" rfl rfl

-- Claim C6: decryption failure handling.

/-- C6: on a cache miss, a stored ciphertext that fails authenticated
decryption (wrong derived key or corrupted blob) makes get return absent
without raising and without caching, and the trace carries the
secrets-decryption-failed log event; a never-configured secret also yields
absent but without that event, so the two outcomes are distinguishable. -/
theorem c6_decrypt_failure_absent (st : ServiceState) (secret_name path : String) (c : Ciphertext)
    (hF : st.storeFails = false)
    (hc : cache_get st.cache st.now (get_cache_key secret_name path) = none) :
    (store_find st.store (path ++ "/" ++ secret_name) = some c →
      decrypt_value st.masterKey c = Except.error CryptoError.invalidToken →
        (get_secret st secret_name path).value = none
        ∧ Event.logDecryptFailed (path ++ "/" ++ secret_name) ∈ (get_secret st secret_name path).trace
        ∧ (get_secret st secret_name path).state = st)
    ∧ (store_find st.store (path ++ "/" ++ secret_name) = none →
        (get_secret st secret_name path).value = none
        ∧ Event.logDecryptFailed (path ++ "/" ++ secret_name) ∉ (get_secret st secret_name path).trace) := by
  constructor
  · intro hfind hdec
    unfold get_secret get_secret_attempt
    simp [hc, hF, hfind, hdec]
  · intro hfind
    unfold get_secret get_secret_attempt
    simp [hc, hF, hfind]

/-- C6 witness: a value encrypted under a different master key is reported
absent and logged at a concrete state, while a missing path is absent
without the log event. -/
theorem c6_decrypt_failure_witness :
    ((get_secret
        { store := [("/organizations/o1/openai_api_key", Ciphertext.token 99 "plaintext")], cache := [],
          masterKey := 7, env := ⟨none, none, none⟩, storeFails := false, now := 0 }
        "openai_api_key" "/organizations/o1").value = none
      ∧ Event.logDecryptFailed ("/organizations/o1" ++ "/" ++ "openai_api_key")
          ∈ (get_secret
        { store := [("/organizations/o1/openai_api_key", Ciphertext.token 99 "plaintext")], cache := [],
          masterKey := 7, env := ⟨none, none, none⟩, storeFails := false, now := 0 }
        "openai_api_key" "/organizations/o1").trace)
    ∧ ((get_secret
        { store := [("/organizations/o1/openai_api_key", Ciphertext.token 99 "plaintext")], cache := [],
          masterKey := 7, env := ⟨none, none, none⟩, storeFails := false, now := 0 }
        "anthropic_api_key" "/organizations/o1").value = none
      ∧ Event.logDecryptFailed ("/organizations/o1" ++ "/" ++ "anthropic_api_key")
          ∉ (get_secret
        { store := [("/organizations/o1/openai_api_key", Ciphertext.token 99 "plaintext")], cache := [],
          masterKey := 7, env := ⟨none, none, none⟩, storeFails := false, now := 0 }
        "anthropic_api_key" "/organizations/o1").trace) := by
  constructor
  · have h := (c6_decrypt_failure_absent
      { store := [("/organizations/o1/openai_api_key", Ciphertext.token 99 "plaintext")], cache := [],
        masterKey := 7, env := ⟨none, none, none⟩, storeFails := false, now := 0 }
      "openai_api_key" "/organizations/o1" (Ciphertext.token 99 "plaintext") rfl rfl).1
      (by decide) (by decide)
    exact ⟨h.1, h.2.1⟩
  · exact (c6_decrypt_failure_absent
      { store := [("/organizations/o1/openai_api_key", Ciphertext.token 99 "plaintext")], cache := [],
        masterKey := 7, env := ⟨none, none, none⟩, storeFails := false, now := 0 }
      "anthropic_api_key" "/organizations/o1" (Ciphertext.corrupted "") rfl rfl).2 (by decide)

-- Claim C3: credential fallback chain.

/-- C3: get_llm_api_key is first-match-wins over team, organization and
environment: a stored, decryptable, non-empty team credential wins when a
team id is given; otherwise the organization credential wins when present;
otherwise the environment mapping for the provider is returned, which is
absent when not configured.  Stated on a cold cache. -/
theorem c3_fallback_chain (st : ServiceState) (provider org_id team_id kt ko : String)
    (hF : st.storeFails = false) (hc : st.cache = []) (ht : ¬ team_id = "") :
    (store_find st.store (get_secret_path org_id (some team_id) ++ "/" ++ (provider ++ "_api_key"))
        = some (Ciphertext.token st.masterKey kt) → ¬ kt = "" →
      (get_llm_api_key st provider org_id (some team_id)).value = some kt)
    ∧ (store_find st.store (get_secret_path org_id (some team_id) ++ "/" ++ (provider ++ "_api_key"))
        = none →
       store_find st.store (get_secret_path org_id none ++ "/" ++ (provider ++ "_api_key"))
        = some (Ciphertext.token st.masterKey ko) → ¬ ko = "" →
      (get_llm_api_key st provider org_id (some team_id)).value = some ko)
    ∧ (store_find st.store (get_secret_path org_id none ++ "/" ++ (provider ++ "_api_key"))
        = some (Ciphertext.token st.masterKey ko) → ¬ ko = "" →
      (get_llm_api_key st provider org_id none).value = some ko)
    ∧ (store_find st.store (get_secret_path org_id (some team_id) ++ "/" ++ (provider ++ "_api_key"))
        = none →
       store_find st.store (get_secret_path org_id none ++ "/" ++ (provider ++ "_api_key"))
        = none →
      (get_llm_api_key st provider org_id (some team_id)).value = get_env_fallback st.env provider)
    ∧ (store_find st.store (get_secret_path org_id none ++ "/" ++ (provider ++ "_api_key"))
        = none →
      (get_llm_api_key st provider org_id none).value = get_env_fallback st.env provider) := by
  refine ⟨?_, ?_, ?_, ?_, ?_⟩
  · intro hfind hkt
    unfold get_llm_api_key get_secret get_secret_attempt
    simp [hF, hc, ht, hfind, hkt, cache_get, decrypt_value, optTruthy]
  · intro hmiss hfind hko
    unfold get_llm_api_key get_secret get_secret_attempt
    simp [hF, hc, ht, hmiss, hfind, hko, cache_get, decrypt_value, optTruthy]
  · intro hfind hko
    unfold get_llm_api_key get_secret get_secret_attempt
    simp [hF, hc, hfind, hko, cache_get, decrypt_value, optTruthy]
  · intro hmiss1 hmiss2
    unfold get_llm_api_key get_secret get_secret_attempt
    simp [hF, hc, ht, hmiss1, hmiss2, cache_get, optTruthy]
  · intro hmiss
    unfold get_llm_api_key get_secret get_secret_attempt
    simp [hF, hc, hmiss, cache_get, optTruthy]

/-- C3 witness: with both a team and an org credential stored, the call with
the team id returns the team value, the call without it returns the org
value, and with nothing stored the environment default is returned. -/
theorem c3_fallback_chain_witness :
    ((get_llm_api_key
        { store := [("/organizations/o1/teams/t1/openai_api_key", Ciphertext.token 7 "team-key"),
                    ("/organizations/o1/openai_api_key", Ciphertext.token 7 "org-key")],
          cache := [], masterKey := 7, env := ⟨some "env-key", none, none⟩,
          storeFails := false, now := 0 }
        "openai" "o1" (some "t1")).value = some "team-key")
    ∧ ((get_llm_api_key
        { store := [("/organizations/o1/teams/t1/openai_api_key", Ciphertext.token 7 "team-key"),
                    ("/organizations/o1/openai_api_key", Ciphertext.token 7 "org-key")],
          cache := [], masterKey := 7, env := ⟨some "env-key", none, none⟩,
          storeFails := false, now := 0 }
        "openai" "o1" none).value = some "org-key")
    ∧ ((get_llm_api_key
        { store := [], cache := [], masterKey := 7, env := ⟨some "env-key", none, none⟩,
          storeFails := false, now := 0 }
        "openai" "o1" (some "t1")).value = some "env-key")
    ∧ ((get_llm_api_key
        { store := [], cache := [], masterKey := 7, env := ⟨none, none, none⟩,
          storeFails := false, now := 0 }
        "openai" "o1" (some "t1")).value = none) := by
  refine ⟨?_, ?_, ?_, ?_⟩
  · exact (c3_fallback_chain
      { store := [("/organizations/o1/teams/t1/openai_api_key", Ciphertext.token 7 "team-key"),
                  ("/organizations/o1/openai_api_key", Ciphertext.token 7 "org-key")],
        cache := [], masterKey := 7, env := ⟨some "env-key", none, none⟩,
        storeFails := false, now := 0 }
      "openai" "o1" "t1" "team-key" "org-key" rfl rfl (by decide)).1 (by decide) (by decide)
  · exact (c3_fallback_chain
      { store := [("/organizations/o1/teams/t1/openai_api_key", Ciphertext.token 7 "team-key"),
                  ("/organizations/o1/openai_api_key", Ciphertext.token 7 "org-key")],
        cache := [], masterKey := 7, env := ⟨some "env-key", none, none⟩,
        storeFails := false, now := 0 }
      "openai" "o1" "t1" "team-key" "org-key" rfl rfl (by decide)).2.2.1 (by decide) (by decide)
  · exact (c3_fallback_chain
      { store := [], cache := [], masterKey := 7, env := ⟨some "env-key", none, none⟩,
        storeFails := false, now := 0 }
      "openai" "o1" "t1" "x" "y" rfl rfl (by decide)).2.2.2.1 (by decide) (by decide)
  · exact (c3_fallback_chain
      { store := [], cache := [], masterKey := 7, env := ⟨none, none, none⟩,
        storeFails := false, now := 0 }
      "openai" "o1" "t1" "x" "y" rfl rfl (by decide)).2.2.2.1 (by decide) (by decide)

-- Claim C9: provider validation asymmetry.

/-- On an empty store and cache, get_secret misses and changes nothing. -/
theorem get_secret_empty (st : ServiceState) (secret_name path : String)
    (hs : st.store = []) (hc : st.cache = []) :
    (get_secret st secret_name path).value = none ∧ (get_secret st secret_name path).state = st := by
  unfold get_secret get_secret_attempt
  cases hsf : st.storeFails <;> simp [hc, hs, cache_get, store_find, List.find?, hsf]

/-- On an empty store and cache, the credential chain reduces to the
environment fallback. -/
theorem get_llm_api_key_empty (st : ServiceState) (provider org_id : String) (team_id : Option String)
    (hs : st.store = []) (hc : st.cache = []) :
    (get_llm_api_key st provider org_id team_id).value = get_env_fallback st.env provider := by
  have h1 := get_secret_empty st (provider ++ "_api_key") (get_secret_path org_id team_id) hs hc
  have h2 := get_secret_empty st (provider ++ "_api_key") (get_secret_path org_id none) hs hc
  unfold get_llm_api_key
  cases hT : optTruthy team_id with
  | false => simp [hT, h2.1, optTruthy]
  | true => simp [hT, h1.1, h1.2, h2.1, optTruthy]

/-- C9: for a provider outside the supported list, set_llm_api_key and
delete_llm_api_key return False before touching the store or the cache
(state unchanged, no events), while get_llm_api_key performs no provider
validation and, with nothing stored, resolves through the chain to the
absent environment mapping of the unknown provider. -/
theorem c9_unknown_provider (st : ServiceState) (provider api_key org_id : String) (team_id : Option String)
    (hp : SUPPORTED_PROVIDERS.contains provider = false) :
    set_llm_api_key st provider api_key org_id team_id = { ok := false, state := st, trace := [] }
    ∧ delete_llm_api_key st provider org_id team_id = { ok := false, state := st, trace := [] }
    ∧ (st.store = [] → st.cache = [] →
        (get_llm_api_key st provider org_id team_id).value = none) := by
  have env0 : get_env_fallback st.env provider = none := by
    unfold get_env_fallback
    by_cases h1 : provider = "openai"
    · subst h1; simp [SUPPORTED_PROVIDERS] at hp
    · by_cases h2 : provider = "anthropic"
      · subst h2; simp [SUPPORTED_PROVIDERS] at hp
      · by_cases h3 : provider = "google"
        · subst h3; simp [SUPPORTED_PROVIDERS] at hp
        · simp [h1, h2, h3]
  have hp2 : provider ∉ SUPPORTED_PROVIDERS := by simpa using hp
  refine ⟨?_, ?_, ?_⟩
  · unfold set_llm_api_key
    simp [hp2]
  · unfold delete_llm_api_key
    simp [hp2]
  · intro hs hc
    rw [get_llm_api_key_empty st provider org_id team_id hs hc, env0]

/-- C9 witness: a rejected provider string at a concrete state. -/
theorem c9_unknown_provider_witness :
    set_llm_api_key
        { store := [], cache := [], masterKey := 7, env := ⟨some "env-key", none, none⟩,
          storeFails := false, now := 0 }
        "mistral" "sk-x" "o1" (some "t1")
      = { ok := false,
          state := { store := [], cache := [], masterKey := 7, env := ⟨some "env-key", none, none⟩,
                     storeFails := false, now := 0 },
          trace := [] }
    ∧ delete_llm_api_key
        { store := [], cache := [], masterKey := 7, env := ⟨some "env-key", none, none⟩,
          storeFails := false, now := 0 }
        "mistral" "o1" (some "t1")
      = { ok := false,
          state := { store := [], cache := [], masterKey := 7, env := ⟨some "env-key", none, none⟩,
                     storeFails := false, now := 0 },
          trace := [] }
    ∧ (get_llm_api_key
        { store := [], cache := [], masterKey := 7, env := ⟨some "env-key", none, none⟩,
          storeFails := false, now := 0 }
        "mistral" "o1" (some "t1")).value = none := by
  have h := c9_unknown_provider
    { store := [], cache := [], masterKey := 7, env := ⟨some "env-key", none, none⟩,
      storeFails := false, now := 0 }
    "mistral" "sk-x" "o1" (some "t1") (by decide)
  exact ⟨h.1, h.2.1, h.2.2 rfl rfl⟩

-- Claim C10: empty-string credentials in the chain.

/-- The cache key of a team-scoped secret differs from the cache key of the
organization-scoped secret of the same name, because the team path is
strictly longer. -/
theorem team_org_cache_key_ne (org_id team_id secret_name : String) (ht : ¬ team_id = "") :
    ¬ (get_cache_key secret_name (get_secret_path org_id (some team_id))
        = get_cache_key secret_name (get_secret_path org_id none)) := by
  intro hEq
  have hb : (team_id == "") = false := by simpa using ht
  unfold get_cache_key get_secret_path at hEq
  simp only [hb, Bool.false_eq_true, if_false] at hEq
  have hlen := congrArg String.length hEq
  have h7 : ("/teams/" : String).length = 7 := rfl
  simp only [String.length_append, h7] at hlen
  omega

/-- C10 counterexample: with no stored credentials and the environment
default configured as the empty string, get_llm_api_key returns the empty
string itself (the code returns the environment value without a truthiness
check), contradicting the claim that the empty string is never the returned
credential and that an empty environment default makes the result absent. -/
theorem c10_empty_env_counterexample :
    (get_llm_api_key
        { store := [], cache := [], masterKey := 7, env := ⟨some "", none, none⟩,
          storeFails := false, now := 0 }
        "openai" "o1" none).value = some ""
    ∧ ¬ ((get_llm_api_key
        { store := [], cache := [], masterKey := 7, env := ⟨some "", none, none⟩,
          storeFails := false, now := 0 }
        "openai" "o1" none).value = none) := by
  decide

/-- C10 amended: a stored credential that decrypts to the empty string is
treated as absent and the chain continues: an empty team value falls back
to the org credential, and an empty org value falls back to the environment
mapping, which is returned verbatim — so the final result can still be the
empty string when the environment default is the empty string. -/
theorem c10_empty_secret_fallthrough (st : ServiceState) (provider org_id team_id ko : String)
    (hF : st.storeFails = false) (hc : st.cache = []) (ht : ¬ team_id = "")
    (hteam : store_find st.store (get_secret_path org_id (some team_id) ++ "/" ++ (provider ++ "_api_key"))
        = some (Ciphertext.token st.masterKey "")) :
    (store_find st.store (get_secret_path org_id none ++ "/" ++ (provider ++ "_api_key"))
        = some (Ciphertext.token st.masterKey ko) → ¬ ko = "" →
      (get_llm_api_key st provider org_id (some team_id)).value = some ko)
    ∧ (store_find st.store (get_secret_path org_id none ++ "/" ++ (provider ++ "_api_key"))
        = some (Ciphertext.token st.masterKey "") →
      (get_llm_api_key st provider org_id (some team_id)).value = get_env_fallback st.env provider) := by
  have hne1 := team_org_cache_key_ne org_id team_id (provider ++ "_api_key") ht
  have hne2 : ¬ (get_cache_key (provider ++ "_api_key") (get_secret_path org_id none)
      = get_cache_key (provider ++ "_api_key") (get_secret_path org_id (some team_id))) :=
    fun h => hne1 h.symm
  constructor
  · intro hfind hko
    unfold get_llm_api_key get_secret get_secret_attempt
    simp [hF, hc, ht, hteam, hfind, hko, hne1, hne2, cache_get, cache_put, decrypt_value,
      optTruthy, List.find?]
  · intro hfind
    unfold get_llm_api_key get_secret get_secret_attempt
    simp [hF, hc, ht, hteam, hfind, hne1, hne2, cache_get, cache_put, decrypt_value,
      optTruthy, List.find?]

/-- C10 witness: a concrete state where the team credential decrypts to the
empty string and the org credential wins, and one where both stored values
are empty and the environment default is returned. -/
theorem c10_empty_secret_fallthrough_witness :
    ((get_llm_api_key
        { store := [("/organizations/o1/teams/t1/openai_api_key", Ciphertext.token 7 ""),
                    ("/organizations/o1/openai_api_key", Ciphertext.token 7 "org-key")],
          cache := [], masterKey := 7, env := ⟨some "env-key", none, none⟩,
          storeFails := false, now := 0 }
        "openai" "o1" (some "t1")).value = some "org-key")
    ∧ ((get_llm_api_key
        { store := [("/organizations/o1/teams/t1/openai_api_key", Ciphertext.token 7 ""),
                    ("/organizations/o1/openai_api_key", Ciphertext.token 7 "")],
          cache := [], masterKey := 7, env := ⟨some "env-key", none, none⟩,
          storeFails := false, now := 0 }
        "openai" "o1" (some "t1")).value = some "env-key") := by
  constructor
  · exact (c10_empty_secret_fallthrough
      { store := [("/organizations/o1/teams/t1/openai_api_key", Ciphertext.token 7 ""),
                  ("/organizations/o1/openai_api_key", Ciphertext.token 7 "org-key")],
        cache := [], masterKey := 7, env := ⟨some "env-key", none, none⟩,
        storeFails := false, now := 0 }
      "openai" "o1" "t1" "org-key" rfl rfl (by decide) (by decide)).1 (by decide) (by decide)
  · exact (c10_empty_secret_fallthrough
      { store := [("/organizations/o1/teams/t1/openai_api_key", Ciphertext.token 7 ""),
                  ("/organizations/o1/openai_api_key", Ciphertext.token 7 "")],
        cache := [], masterKey := 7, env := ⟨some "env-key", none, none⟩,
        storeFails := false, now := 0 }
      "openai" "o1" "t1" "x" rfl rfl (by decide) (by decide)).2 (by decide)

-- Part B: llm_settings/models.py and llm_settings/service.py.

/-- Model capability enum of llm_settings/models.py. -/
inductive ModelCapability where
  | tool_calling
  | vision
  | streaming
  | structured_output
  | reasoning
  | long_context
  | document
deriving DecidableEq

/-- String value of a capability, as produced by `.value` in Python. -/
def ModelCapability.value : ModelCapability → String
  | ModelCapability.tool_calling => "tool_calling"
  | ModelCapability.vision => "vision"
  | ModelCapability.streaming => "streaming"
  | ModelCapability.structured_output => "structured_output"
  | ModelCapability.reasoning => "reasoning"
  | ModelCapability.long_context => "long_context"
  | ModelCapability.document => "document"

/-- One entry of the BUILT_IN_MODELS catalog. -/
structure BuiltInModel where
  id : String
  name : String
  capabilities : List ModelCapability
  max_context_tokens : Option Nat
  max_output_tokens : Option Nat
deriving DecidableEq

/-- The BUILT_IN_MODELS catalog of llm_settings/models.py, keyed by
provider. -/
def BUILT_IN_MODELS : List (String × List BuiltInModel) :=
  [("anthropic",
    [{ id := "claude-sonnet-4-20250514", name := "Claude Sonnet 4",
       capabilities := [ModelCapability.tool_calling, ModelCapability.vision,
         ModelCapability.streaming, ModelCapability.structured_output, ModelCapability.document],
       max_context_tokens := some 200000, max_output_tokens := some 64000 },
     { id := "claude-haiku-4-5-20251001", name := "Claude Haiku 4.5",
       capabilities := [ModelCapability.tool_calling, ModelCapability.vision,
         ModelCapability.streaming, ModelCapability.structured_output],
       max_context_tokens := some 200000, max_output_tokens := some 8192 },
     { id := "claude-opus-4-20250514", name := "Claude Opus 4",
       capabilities := [ModelCapability.tool_calling, ModelCapability.vision,
         ModelCapability.streaming, ModelCapability.structured_output,
         ModelCapability.reasoning, ModelCapability.long_context, ModelCapability.document],
       max_context_tokens := some 200000, max_output_tokens := some 32000 }]),
   ("openai",
    [{ id := "gpt-4o", name := "GPT-4o",
       capabilities := [ModelCapability.tool_calling, ModelCapability.vision,
         ModelCapability.streaming, ModelCapability.structured_output],
       max_context_tokens := some 128000, max_output_tokens := some 16384 },
     { id := "gpt-4o-mini", name := "GPT-4o Mini",
       capabilities := [ModelCapability.tool_calling, ModelCapability.vision,
         ModelCapability.streaming, ModelCapability.structured_output],
       max_context_tokens := some 128000, max_output_tokens := some 16384 },
     { id := "o3-mini", name := "O3 Mini",
       capabilities := [ModelCapability.streaming, ModelCapability.reasoning],
       max_context_tokens := some 200000, max_output_tokens := some 100000 },
     { id := "o1", name := "O1",
       capabilities := [ModelCapability.streaming, ModelCapability.reasoning,
         ModelCapability.vision],
       max_context_tokens := some 200000, max_output_tokens := some 100000 }]),
   ("google",
    [{ id := "gemini-2.0-flash", name := "Gemini 2.0 Flash",
       capabilities := [ModelCapability.tool_calling, ModelCapability.vision,
         ModelCapability.streaming],
       max_context_tokens := some 1048576, max_output_tokens := some 8192 },
     { id := "gemini-2.5-pro", name := "Gemini 2.5 Pro",
       capabilities := [ModelCapability.tool_calling, ModelCapability.vision,
         ModelCapability.streaming, ModelCapability.reasoning, ModelCapability.long_context],
       max_context_tokens := some 1048576, max_output_tokens := some 65536 },
     { id := "gemini-2.5-flash", name := "Gemini 2.5 Flash",
       capabilities := [ModelCapability.tool_calling, ModelCapability.vision,
         ModelCapability.streaming],
       max_context_tokens := some 1048576, max_output_tokens := some 65536 }])]

/-- Dictionary lookup `BUILT_IN_MODELS[provider]` guarded by
`provider in BUILT_IN_MODELS`. -/
def built_in_models_lookup (provider : String) : Option (List BuiltInModel) :=
  match BUILT_IN_MODELS.find? (fun e => e.1 == provider) with
  | some e => some e.2
  | none => none

/-- Organization LLM settings row (llm_settings/models.py); all defaults
concrete. -/
structure OrganizationLLMSettings where
  organization_id : String
  default_provider : String
  default_model : String
  default_model_display_name : Option String
  default_temperature : Float
  default_max_tokens : Option Nat
  default_top_p : Float
  fallback_enabled : Bool
  fallback_models : List String
  allow_team_customization : Bool
  allow_user_customization : Bool
  allow_per_request_model_selection : Bool
  enabled_providers : List String
  disabled_models : List String

/-- Team LLM settings row; None means inherit from the organization. -/
structure TeamLLMSettings where
  team_id : String
  default_provider : Option String
  default_model : Option String
  default_temperature : Option Float
  default_max_tokens : Option Nat
  allow_user_customization : Bool
  disabled_models : List String

/-- User LLM settings row; None means inherit. -/
structure UserLLMSettings where
  user_id : String
  preferred_provider : Option String
  preferred_model : Option String
  preferred_temperature : Option Float

/-- One JSON entry of a custom provider's available_models list; optional
fields model dictionary keys that may be missing. -/
structure CustomModelEntry where
  id : Option String
  name : Option String
  capabilities : List String
  max_context_tokens : Option Nat
  max_output_tokens : Option Nat
deriving DecidableEq

/-- Custom OpenAI-compatible provider row. -/
structure CustomLLMProvider where
  id : String
  organization_id : String
  team_id : Option String
  name : String
  provider_type : String
  base_url : String
  available_models : List CustomModelEntry
  is_enabled : Bool

/-- ModelInfo response schema of llm_settings/models.py. -/
structure ModelInfo where
  id : String
  name : String
  provider : String
  capabilities : List String
  max_context_tokens : Option Nat
  max_output_tokens : Option Nat
  is_custom : Bool
  custom_provider_id : Option String
deriving DecidableEq

/-- Computed effective LLM settings (EffectiveLLMSettings schema). -/
structure EffectiveLLMSettings where
  provider : String
  model : String
  temperature : Float
  max_tokens : Option Nat
  top_p : Float
  fallback_enabled : Bool
  fallback_models : List String
  available_providers : List String
  available_models : List ModelInfo
  can_change_model : Bool
  can_change_parameters : Bool
  per_request_selection_allowed : Bool
  settings_source : String

/-- The relational rows the settings service reads. -/
structure SettingsDB where
  org_settings : List OrganizationLLMSettings
  team_settings : List TeamLLMSettings
  user_settings : List UserLLMSettings
  custom_providers : List CustomLLMProvider

/-- Embedding of `get_or_create_org_llm_settings`: return the stored row or
the hard-coded defaults from llm_settings/service.py. -/
def get_or_create_org_llm_settings (db : SettingsDB) (organization_id : String) : OrganizationLLMSettings :=
  match db.org_settings.find? (fun s => s.organization_id == organization_id) with
  | some s => s
  | none =>
      { organization_id := organization_id
        default_provider := "anthropic"
        default_model := "claude-sonnet-4-20250514"
        default_model_display_name := none
        default_temperature := 0.7
        default_max_tokens := none
        default_top_p := 1.0
        fallback_enabled := false
        fallback_models := []
        allow_team_customization := true
        allow_user_customization := true
        allow_per_request_model_selection := true
        enabled_providers := ["anthropic", "openai", "google"]
        disabled_models := [] }

/-- Embedding of `get_or_create_team_llm_settings`. -/
def get_or_create_team_llm_settings (db : SettingsDB) (team_id : String) : TeamLLMSettings :=
  match db.team_settings.find? (fun s => s.team_id == team_id) with
  | some s => s
  | none =>
      { team_id := team_id
        default_provider := none
        default_model := none
        default_temperature := none
        default_max_tokens := none
        allow_user_customization := true
        disabled_models := [] }

/-- Embedding of `get_or_create_user_llm_settings`. -/
def get_or_create_user_llm_settings (db : SettingsDB) (user_id : String) : UserLLMSettings :=
  match db.user_settings.find? (fun s => s.user_id == user_id) with
  | some s => s
  | none =>
      { user_id := user_id
        preferred_provider := none
        preferred_model := none
        preferred_temperature := none }

/-- Embedding of `list_custom_providers`: enabled providers of the
organization, restricted (when a team id is given, which for UUIDs means
present) to org-level or that team's providers. -/
def list_custom_providers (db : SettingsDB) (organization_id : String) (team_id : Option String) : List CustomLLMProvider :=
  let base := db.custom_providers.filter (fun p => p.organization_id == organization_id && p.is_enabled)
  match team_id with
  | some t => base.filter (fun p => p.team_id == none || p.team_id == some t)
  | none => base

/-- ModelInfo built for a built-in catalog entry in `get_available_models`. -/
def builtin_model_info (provider : String) (m : BuiltInModel) : ModelInfo :=
  { id := m.id
    name := m.name
    provider := provider
    capabilities := m.capabilities.map ModelCapability.value
    max_context_tokens := m.max_context_tokens
    max_output_tokens := m.max_output_tokens
    is_custom := false
    custom_provider_id := none }

/-- ModelInfo built for a custom provider model entry in
`get_available_models`; dictionary accesses with defaults mirror
`model_data.get`. -/
def custom_model_info (cp : CustomLLMProvider) (e : CustomModelEntry) : ModelInfo :=
  { id := e.id.getD ""
    name := e.name.getD (e.id.getD "")
    provider := "custom"
    capabilities := e.capabilities
    max_context_tokens := e.max_context_tokens
    max_output_tokens := e.max_output_tokens
    is_custom := true
    custom_provider_id := some cp.id }

/-- Embedding of `get_available_models`: built-in models of the enabled
providers plus custom provider models with a non-empty id, all filtered
against the merged org and team disabled lists. -/
def get_available_models (db : SettingsDB) (organization_id : String) (team_id : Option String) : List ModelInfo :=
  let org_settings := get_or_create_org_llm_settings db organization_id
  let disabled_models : List String :=
    org_settings.disabled_models ++
      (match team_id with
       | some t => (get_or_create_team_llm_settings db t).disabled_models
       | none => [])
  let builtin : List ModelInfo :=
    org_settings.enabled_providers.flatMap (fun provider =>
      match built_in_models_lookup provider with
      | some ms =>
          (ms.filter (fun m => !(disabled_models.contains m.id))).map (builtin_model_info provider)
      | none => [])
  let custom : List ModelInfo :=
    (list_custom_providers db organization_id team_id).flatMap (fun cp =>
      (cp.available_models.filter (fun e =>
          !((e.id.getD "") == "") && !(disabled_models.contains (e.id.getD "")))).map
        (custom_model_info cp))
  builtin ++ custom

/-- Embedding of `get_effective_llm_settings`: seed with org values, apply
the team layer only when the org allows team customization, gate the user
layer on the combined customization flag, and report provenance in
settings_source. -/
def get_effective_llm_settings (db : SettingsDB) (user_id organization_id : String) (team_id : Option String) : EffectiveLLMSettings :=
  let org_settings := get_or_create_org_llm_settings db organization_id
  let team_settings : Option TeamLLMSettings :=
    match team_id with
    | some t => some (get_or_create_team_llm_settings db t)
    | none => none
  let user_settings := get_or_create_user_llm_settings db user_id
  let afterTeam : String × String × Float × Option Nat × String × Bool :=
    match team_settings with
    | some ts =>
        if org_settings.allow_team_customization then
          let provider1 := match ts.default_provider with
            | some p => p
            | none => org_settings.default_provider
          let source1 := match ts.default_provider with
            | some _ => "team"
            | none => "org"
          let model1 := match ts.default_model with
            | some m => m
            | none => org_settings.default_model
          let source2 := match ts.default_model with
            | some _ => "team"
            | none => source1
          let temp1 := match ts.default_temperature with
            | some t => t
            | none => org_settings.default_temperature
          let max1 := match ts.default_max_tokens with
            | some m => some m
            | none => org_settings.default_max_tokens
          (provider1, model1, temp1, max1, source2,
           org_settings.allow_user_customization && ts.allow_user_customization)
        else
          (org_settings.default_provider, org_settings.default_model,
           org_settings.default_temperature, org_settings.default_max_tokens, "org",
           org_settings.allow_user_customization)
    | none =>
        (org_settings.default_provider, org_settings.default_model,
         org_settings.default_temperature, org_settings.default_max_tokens, "org",
         org_settings.allow_user_customization)
  let afterUser : String × String × Float × String × Bool × Bool :=
    if afterTeam.2.2.2.2.2 then
      let provider2 := match user_settings.preferred_provider with
        | some p => p
        | none => afterTeam.1
      let source3 := match user_settings.preferred_provider with
        | some _ => "user"
        | none => afterTeam.2.2.2.2.1
      let model2 := match user_settings.preferred_model with
        | some m => m
        | none => afterTeam.2.1
      let source4 := match user_settings.preferred_model with
        | some _ => "user"
        | none => source3
      let temp2 := match user_settings.preferred_temperature with
        | some t => t
        | none => afterTeam.2.2.1
      (provider2, model2, temp2, source4, true, true)
    else
      (afterTeam.1, afterTeam.2.1, afterTeam.2.2.1, afterTeam.2.2.2.2.1, false, false)
  let available_models := get_available_models db organization_id team_id
  let custom_providers := list_custom_providers db organization_id team_id
  let available_providers :=
    if !custom_providers.isEmpty && !(org_settings.enabled_providers.contains "custom") then
      org_settings.enabled_providers ++ ["custom"]
    else
      org_settings.enabled_providers
  { provider := afterUser.1
    model := afterUser.2.1
    temperature := afterUser.2.2.1
    max_tokens := afterTeam.2.2.2.1
    top_p := org_settings.default_top_p
    fallback_enabled := org_settings.fallback_enabled
    fallback_models := org_settings.fallback_models
    available_providers := available_providers
    available_models := available_models
    can_change_model := afterUser.2.2.2.2.1
    can_change_parameters := afterUser.2.2.2.2.2
    per_request_selection_allowed := org_settings.allow_per_request_model_selection
    settings_source := afterUser.2.2.2.1 }

-- Claim C1: gating of user customization.

/-- Concrete database for the C1 counterexample: the organization forbids
team customization but allows user customization, the team row forbids user
customization, and the user stores a preferred model. -/
def c1db : SettingsDB :=
  { org_settings :=
      [{ organization_id := "o1", default_provider := "anthropic",
         default_model := "org-model", default_model_display_name := none,
         default_temperature := 0.7, default_max_tokens := none, default_top_p := 1.0,
         fallback_enabled := false, fallback_models := [],
         allow_team_customization := false, allow_user_customization := true,
         allow_per_request_model_selection := true,
         enabled_providers := ["anthropic"], disabled_models := [] }]
    team_settings :=
      [{ team_id := "t1", default_provider := none, default_model := none,
         default_temperature := none, default_max_tokens := none,
         allow_user_customization := false, disabled_models := [] }]
    user_settings :=
      [{ user_id := "u1", preferred_provider := none, preferred_model := some "user-pick",
         preferred_temperature := none }]
    custom_providers := [] }

/-- C1 counterexample: with a team context whose org forbids team
customization, the team's allow_user_customization = false is NOT consulted:
the computed result allows user customization (can_change_model = true) and
applies the user-level model override, although the claimed conjunction
org.allowUserCustomization AND team.allowUserCustomization is false. -/
theorem c1_team_flag_ignored_counterexample :
    (get_effective_llm_settings c1db "u1" "o1" (some "t1")).can_change_model = true
    ∧ ((get_or_create_org_llm_settings c1db "o1").allow_user_customization
        && (get_or_create_team_llm_settings c1db "t1").allow_user_customization) = false
    ∧ (get_effective_llm_settings c1db "u1" "o1" (some "t1")).model = "user-pick"
    ∧ (get_effective_llm_settings c1db "u1" "o1" (some "t1")).settings_source = "user" := by
  decide

/-- C1 amended: with a team context, userCanCustomize (observable as
can_change_model) equals org.allowUserCustomization AND
team.allowUserCustomization only when org.allowTeamCustomization is true;
when org.allowTeamCustomization is false the team flag is not consulted and
userCanCustomize equals org.allowUserCustomization alone, so a user-level
override is suppressed by the team flag only inside an allowed team layer. -/
theorem c1_user_customization_gate (db : SettingsDB) (user_id organization_id team_id : String) :
    ((get_or_create_org_llm_settings db organization_id).allow_team_customization = true →
      (get_effective_llm_settings db user_id organization_id (some team_id)).can_change_model
        = ((get_or_create_org_llm_settings db organization_id).allow_user_customization
            && (get_or_create_team_llm_settings db team_id).allow_user_customization))
    ∧ ((get_or_create_org_llm_settings db organization_id).allow_team_customization = false →
      (get_effective_llm_settings db user_id organization_id (some team_id)).can_change_model
        = (get_or_create_org_llm_settings db organization_id).allow_user_customization) := by
  constructor
  · intro h
    unfold get_effective_llm_settings
    cases hu : ((get_or_create_org_llm_settings db organization_id).allow_user_customization
        && (get_or_create_team_llm_settings db team_id).allow_user_customization) <;>
      simp [h, hu]
  · intro h
    unfold get_effective_llm_settings
    cases hu : (get_or_create_org_llm_settings db organization_id).allow_user_customization <;>
      simp [h, hu]

/-- Concrete database like c1db but with team customization allowed, for
the first branch of the C1 witness. -/
def c1db2 : SettingsDB :=
  { org_settings :=
      [{ organization_id := "o1", default_provider := "anthropic",
         default_model := "org-model", default_model_display_name := none,
         default_temperature := 0.7, default_max_tokens := none, default_top_p := 1.0,
         fallback_enabled := false, fallback_models := [],
         allow_team_customization := true, allow_user_customization := true,
         allow_per_request_model_selection := true,
         enabled_providers := ["anthropic"], disabled_models := [] }]
    team_settings :=
      [{ team_id := "t1", default_provider := none, default_model := none,
         default_temperature := none, default_max_tokens := none,
         allow_user_customization := false, disabled_models := [] }]
    user_settings :=
      [{ user_id := "u1", preferred_provider := none, preferred_model := some "user-pick",
         preferred_temperature := none }]
    custom_providers := [] }

/-- C1 witness: both branches of the amended gate at concrete databases. -/
theorem c1_user_customization_gate_witness :
    ((get_effective_llm_settings c1db2 "u1" "o1" (some "t1")).can_change_model
        = ((get_or_create_org_llm_settings c1db2 "o1").allow_user_customization
            && (get_or_create_team_llm_settings c1db2 "t1").allow_user_customization))
    ∧ ((get_effective_llm_settings c1db "u1" "o1" (some "t1")).can_change_model
        = (get_or_create_org_llm_settings c1db "o1").allow_user_customization) :=
  ⟨(c1_user_customization_gate c1db2 "u1" "o1" "t1").1 (by decide),
   (c1_user_customization_gate c1db "u1" "o1" "t1").2 (by decide)⟩

-- Claim C4: permission veto of team model overrides.

/-- Concrete database for the C4 counterexample: the org forbids team
customization, the team stores model X, and the user stores a preferred
model that does apply. -/
def c4db : SettingsDB :=
  { org_settings :=
      [{ organization_id := "o1", default_provider := "anthropic",
         default_model := "org-model", default_model_display_name := none,
         default_temperature := 0.7, default_max_tokens := none, default_top_p := 1.0,
         fallback_enabled := false, fallback_models := [],
         allow_team_customization := false, allow_user_customization := true,
         allow_per_request_model_selection := true,
         enabled_providers := ["anthropic"], disabled_models := [] }]
    team_settings :=
      [{ team_id := "t1", default_provider := none, default_model := some "X",
         default_temperature := none, default_max_tokens := none,
         allow_user_customization := true, disabled_models := [] }]
    user_settings :=
      [{ user_id := "u1", preferred_provider := none, preferred_model := some "user-pick",
         preferred_temperature := none }]
    custom_providers := [] }

/-- C4 counterexample: with allow_team_customization = false and a stored
team model X, the result model is NOT necessarily the organization default
and the source is NOT necessarily org: a permitted user-level preference
still overrides, so the claim fails as universally stated (the team
override is indeed inert, but the user layer is not). -/
theorem c4_user_override_counterexample :
    (get_or_create_org_llm_settings c4db "o1").allow_team_customization = false
    ∧ (get_or_create_team_llm_settings c4db "t1").default_model = some "X"
    ∧ (get_effective_llm_settings c4db "u1" "o1" (some "t1")).model = "user-pick"
    ∧ ¬ ((get_effective_llm_settings c4db "u1" "o1" (some "t1")).model
        = (get_or_create_org_llm_settings c4db "o1").default_model)
    ∧ ¬ ((get_effective_llm_settings c4db "u1" "o1" (some "t1")).settings_source = "org") := by
  decide

/-- C4 amended: with allow_team_customization = false, every stored team
override (model X included) is inert and no error is raised; whenever the
user layer contributes no provider or model preference, the result model
and provider are the organization defaults and settings_source is org, for
every team row. -/
theorem c4_team_override_inert (db : SettingsDB) (user_id organization_id team_id : String)
    (h : (get_or_create_org_llm_settings db organization_id).allow_team_customization = false)
    (hp : (get_or_create_user_llm_settings db user_id).preferred_provider = none)
    (hm : (get_or_create_user_llm_settings db user_id).preferred_model = none) :
    (get_effective_llm_settings db user_id organization_id (some team_id)).model
      = (get_or_create_org_llm_settings db organization_id).default_model
    ∧ (get_effective_llm_settings db user_id organization_id (some team_id)).provider
      = (get_or_create_org_llm_settings db organization_id).default_provider
    ∧ (get_effective_llm_settings db user_id organization_id (some team_id)).settings_source = "org" := by
  unfold get_effective_llm_settings
  cases hu : (get_or_create_org_llm_settings db organization_id).allow_user_customization <;>
    simp [h, hp, hm, hu]

/-- Concrete database for the C4 witness: like c4db but the user stores no
preferences. -/
def c4wdb : SettingsDB :=
  { org_settings :=
      [{ organization_id := "o1", default_provider := "anthropic",
         default_model := "org-model", default_model_display_name := none,
         default_temperature := 0.7, default_max_tokens := none, default_top_p := 1.0,
         fallback_enabled := false, fallback_models := [],
         allow_team_customization := false, allow_user_customization := true,
         allow_per_request_model_selection := true,
         enabled_providers := ["anthropic"], disabled_models := [] }]
    team_settings :=
      [{ team_id := "t1", default_provider := some "openai", default_model := some "X",
         default_temperature := none, default_max_tokens := none,
         allow_user_customization := true, disabled_models := [] }]
    user_settings := []
    custom_providers := [] }

/-- C4 witness: the amended veto at a concrete database whose team row
stores both a provider and a model override. -/
theorem c4_team_override_inert_witness :
    (get_effective_llm_settings c4wdb "u1" "o1" (some "t1")).model
      = (get_or_create_org_llm_settings c4wdb "o1").default_model
    ∧ (get_effective_llm_settings c4wdb "u1" "o1" (some "t1")).provider
      = (get_or_create_org_llm_settings c4wdb "o1").default_provider
    ∧ (get_effective_llm_settings c4wdb "u1" "o1" (some "t1")).settings_source = "org" :=
  c4_team_override_inert c4wdb "u1" "o1" "t1" (by decide) (by decide) (by decide)

-- Claim C8: available models computation.

/-- Mapping distributes over flatMap. -/
theorem map_flatMap_helper {α β γ : Type} (l : List α) (f : α → List β) (g : β → γ) :
    (l.flatMap f).map g = l.flatMap (fun a => (f a).map g) := by
  induction l with
  | nil => rfl
  | cons a t ih => simp [List.flatMap_cons, List.map_append, ih]

/-- Filtering distributes over flatMap. -/
theorem filter_flatMap_helper {α β : Type} (l : List α) (f : α → List β) (p : β → Bool) :
    (l.flatMap f).filter p = l.flatMap (fun a => (f a).filter p) := by
  induction l with
  | nil => rfl
  | cons a t ih => simp [List.flatMap_cons, List.filter_append, ih]

/-- Filtering on a transported predicate commutes with mapping. -/
theorem map_filter_helper {α β : Type} (l : List α) (f : α → β) (p : β → Bool) :
    (l.filter (fun a => p (f a))).map f = (l.map f).filter p := by
  induction l with
  | nil => rfl
  | cons a t ih => cases h : p (f a) <;> simp [List.filter_cons, h, ih]

/-- Two successive filters fuse into one conjunction filter. -/
theorem filter_filter_helper {α : Type} (l : List α) (p q : α → Bool) :
    (l.filter q).filter p = l.filter (fun a => q a && p a) := by
  induction l with
  | nil => rfl
  | cons a t ih => cases hq : q a <;> cases hp : p a <;> simp [List.filter_cons, hq, hp, ih]

/-- flatMap respects pointwise equal functions. -/
theorem flatMap_congr_helper {α β : Type} (l : List α) (f g : α → List β) (h : ∀ a, f a = g a) :
    l.flatMap f = l.flatMap g := by
  induction l with
  | nil => rfl
  | cons a t ih => simp [List.flatMap_cons, h a, ih]

/-- Modelled from the spec claim C8 wording, for comparison with the code:
availableModels (projected to model ids) equals the built-in models of each
provider in enabled_providers, plus the model list of each enabled visible
CustomProvider, minus the union of the org and team disabled lists. -/
def available_model_ids_claim (db : SettingsDB) (organization_id : String) (team_id : Option String) : List String :=
  let org_settings := get_or_create_org_llm_settings db organization_id
  let disabled_models : List String :=
    org_settings.disabled_models ++
      (match team_id with
       | some t => (get_or_create_team_llm_settings db t).disabled_models
       | none => [])
  let builtin : List String :=
    org_settings.enabled_providers.flatMap (fun provider =>
      match built_in_models_lookup provider with
      | some ms => ms.map (fun m => m.id)
      | none => [])
  let custom : List String :=
    (list_custom_providers db organization_id team_id).flatMap (fun cp =>
      cp.available_models.map (fun e => e.id.getD ""))
  (builtin ++ custom).filter (fun i => !(disabled_models.contains i))

/-- The C8 claim amended by the counterexample: custom provider entries
participate only with a non-empty id. -/
def available_model_ids_amended (db : SettingsDB) (organization_id : String) (team_id : Option String) : List String :=
  let org_settings := get_or_create_org_llm_settings db organization_id
  let disabled_models : List String :=
    org_settings.disabled_models ++
      (match team_id with
       | some t => (get_or_create_team_llm_settings db t).disabled_models
       | none => [])
  let builtin : List String :=
    org_settings.enabled_providers.flatMap (fun provider =>
      match built_in_models_lookup provider with
      | some ms => ms.map (fun m => m.id)
      | none => [])
  let custom : List String :=
    (list_custom_providers db organization_id team_id).flatMap (fun cp =>
      (cp.available_models.map (fun e => e.id.getD "")).filter (fun i => !(i == "")))
  (builtin ++ custom).filter (fun i => !(disabled_models.contains i))

/-- Core computation behind C8, stated over the already-extracted provider
list, custom provider list and merged disabled list. -/
theorem c8_core (eps : List String) (cps : List CustomLLMProvider) (disabled : List String) :
    ((eps.flatMap (fun provider =>
        match built_in_models_lookup provider with
        | some ms => (ms.filter (fun m => !(disabled.contains m.id))).map (builtin_model_info provider)
        | none => []))
      ++ (cps.flatMap (fun cp =>
        (cp.available_models.filter (fun e =>
            !((e.id.getD "") == "") && !(disabled.contains (e.id.getD "")))).map
          (custom_model_info cp)))).map (fun m => m.id)
    = ((eps.flatMap (fun provider =>
        match built_in_models_lookup provider with
        | some ms => ms.map (fun m => m.id)
        | none => []))
      ++ (cps.flatMap (fun cp =>
        (cp.available_models.map (fun e => e.id.getD "")).filter (fun i => !(i == ""))))).filter
      (fun i => !(disabled.contains i)) := by
  simp only [List.map_append, List.filter_append]
  congr 1
  · rw [map_flatMap_helper, filter_flatMap_helper]
    apply flatMap_congr_helper
    intro provider
    cases hlk : built_in_models_lookup provider with
    | none => simp
    | some ms =>
        simp only [hlk]
        exact (List.map_map _ _ _).trans
          (map_filter_helper ms (fun m => m.id) (fun i => !(disabled.contains i)))
  · rw [map_flatMap_helper, filter_flatMap_helper]
    apply flatMap_congr_helper
    intro cp
    exact (List.map_map _ _ _).trans
      ((map_filter_helper cp.available_models (fun e => e.id.getD "")
          (fun i => !(i == "") && !(disabled.contains i))).trans
        (filter_filter_helper (cp.available_models.map (fun e => e.id.getD ""))
          (fun i => !(disabled.contains i)) (fun i => !(i == ""))).symm)

/-- Concrete database for the C8 counterexample: one enabled custom
provider whose model list contains an entry without an id. -/
def c8db : SettingsDB :=
  { org_settings :=
      [{ organization_id := "o1", default_provider := "anthropic",
         default_model := "claude-sonnet-4-20250514", default_model_display_name := none,
         default_temperature := 0.7, default_max_tokens := none, default_top_p := 1.0,
         fallback_enabled := false, fallback_models := [],
         allow_team_customization := true, allow_user_customization := true,
         allow_per_request_model_selection := true,
         enabled_providers := [], disabled_models := [] }]
    team_settings := []
    user_settings := []
    custom_providers :=
      [{ id := "cp1", organization_id := "o1", team_id := none, name := "Ollama Local",
         provider_type := "openai_compatible", base_url := "http://localhost:11434/v1",
         available_models :=
           [{ id := none, name := none, capabilities := [],
              max_context_tokens := none, max_output_tokens := none },
            { id := some "llama-3", name := some "Llama 3", capabilities := [],
              max_context_tokens := none, max_output_tokens := none }],
         is_enabled := true }] }

/-- C8 counterexample: a custom model entry with a missing id is part of
the claimed collection (as the empty id) but is skipped by the code, so the
computed availableModels does not equal the claimed formula. -/
theorem c8_empty_id_counterexample :
    ¬ ((get_available_models c8db "o1" none).map (fun m => m.id)
        = available_model_ids_claim c8db "o1" none)
    ∧ (get_available_models c8db "o1" none).map (fun m => m.id) = ["llama-3"]
    ∧ available_model_ids_claim c8db "o1" none = ["", "llama-3"] := by
  decide

/-- C8 amended: for every organization and optional team context, the
computed availableModels (as ids, in order) equals the built-in models of
the enabled providers plus the non-empty-id entries of each enabled visible
CustomProvider's model list, minus the union of the org and (when given)
team disabled lists; the team list is merged additively. -/
theorem c8_available_models_eq (db : SettingsDB) (organization_id : String) (team_id : Option String) :
    (get_available_models db organization_id team_id).map (fun m => m.id)
      = available_model_ids_amended db organization_id team_id :=
  c8_core (get_or_create_org_llm_settings db organization_id).enabled_providers
    (list_custom_providers db organization_id team_id)
    ((get_or_create_org_llm_settings db organization_id).disabled_models ++
      ((match team_id with
        | some t => (get_or_create_team_llm_settings db t).disabled_models
        | none => []) : List String))
